import Mathlib

/-!
Verification of the DemARK notebooks (a HARK tutorial notebook and the
Micro-and-Macro-Implications-of-Very-Impatient-HHs notebook).

The notebooks are scripting glue around an external toolkit: they build
parameter dictionaries, construct agent objects, run a
solve / initializeSim / simulate pipeline, and aggregate a simulated asset
array.  This file shallowly embeds that glue.  Python floats are idealised as
exact rationals (ℚ); where a dictionary entry's numeric magnitude is an
irrational float (a square root or a logarithm) and no claim depends on the
magnitude, the entry carries a stated decimal approximation.  Behaviour of the
external toolkit that the notebooks invoke (constructor defaults, approxUniform,
the lifecycle methods) is modelled from the specification's description, as
flagged in the corresponding doc comments.
-/

/-- Python values as they occur in the notebooks' parameter dictionaries:
numeric scalars, booleans, None, and (possibly heterogeneous) lists. -/
inductive PyVal where
  | num : ℚ → PyVal
  | pybool : Bool → PyVal
  | pynone : PyVal
  | arr : List PyVal → PyVal

/-- A Python numeric scalar.  Python booleans are `int` subclasses
(`True + 1 == 2`), so they count as numeric scalars here. -/
def PyVal.isNumericScalar : PyVal → Bool
  | .num _ => true
  | .pybool _ => true
  | _ => false

/-- A numeric scalar or a sequence whose elements are all numeric scalars. -/
def PyVal.isNumericValue : PyVal → Bool
  | .arr xs => xs.all PyVal.isNumericScalar
  | v => v.isNumericScalar

/-- The binary64 value of the notebook expression `(0.01*4/11)**0.5`
(the square root of 1/275, irrational); recorded to 16 decimal digits.
No claim depends on this magnitude, only on the entry being numeric. -/
def permShkStdVal : ℚ := 0.0603022689155527

/-- The binary64 value of the notebook expression `(0.01*4)**0.5`
(the square root of 0.04). -/
def tranShkStdVal : ℚ := 0.2

/-- The binary64 value of the notebook expression `np.log(0.00001)`
(irrational); recorded to 15 decimal digits.  No claim depends on this
magnitude, only on the entry being numeric. -/
def aNrmInitMeanVal : ℚ := -11.512925464970229

/-- The dictionary `PF_dictionary` from the tutorial notebook, in source
order. -/
def PF_dictionary : List (String × PyVal) :=
  [ ("CRRA", .num 2.5),
    ("DiscFac", .num 0.96),
    ("Rfree", .num 1.03),
    ("LivPrb", .arr [.num 0.98]),
    ("PermGroFac", .arr [.num 1.01]),
    ("T_cycle", .num 1),
    ("cycles", .num 0),
    ("AgentCount", .num 10000) ]

/-- The dictionary `cstwMPC_calibrated_parameters` from the
Micro-and-Macro notebook, in source order.  Exactly representable float
expressions are carried exactly: `1.01/(1.0 - 1.0/160.0)` and
`1.000**0.25 = 1`; the two irrational entries carry the stated
approximations above. -/
def cstwMPC_calibrated_parameters : List (String × PyVal) :=
  [ ("CRRA", .num 1.0),
    ("Rfree", .num (1.01 / (1 - 1/160))),
    ("PermGroFac", .arr [.num 1]),
    ("PermGroFacAgg", .num 1.0),
    ("BoroCnstArt", .num 0.0),
    ("CubicBool", .pybool false),
    ("vFuncBool", .pybool false),
    ("PermShkStd", .arr [.num permShkStdVal]),
    ("PermShkCount", .num 5),
    ("TranShkStd", .arr [.num tranShkStdVal]),
    ("TranShkCount", .num 5),
    ("UnempPrb", .num 0.07),
    ("IncUnemp", .num 0.15),
    ("UnempPrbRet", .pynone),
    ("IncUnempRet", .pynone),
    ("aXtraMin", .num 0.00001),
    ("aXtraMax", .num 40),
    ("aXtraCount", .num 32),
    ("aXtraExtra", .arr [.pynone]),
    ("aXtraNestFac", .num 3),
    ("LivPrb", .arr [.num (1 - 1/160)]),
    ("DiscFac", .num 0.97),
    ("cycles", .num 0),
    ("T_cycle", .num 1),
    ("T_retire", .num 0),
    ("T_sim", .num 1200),
    ("T_age", .num 400),
    ("IndL", .num (10/9)),
    ("aNrmInitMean", .num aNrmInitMeanVal),
    ("aNrmInitStd", .num 0.0),
    ("pLvlInitMean", .num 0.0),
    ("pLvlInitStd", .num 0.0),
    ("AgentCount", .num 10000) ]

/-- A single-period solution object as the spec describes it: a
consumption-policy function `cFunc` and the scalar bounds `mNrmMin`
(minimum feasible resource level) and `hNrm` (human-wealth ratio). -/
structure PeriodSolution where
  cFunc : ℚ → ℚ
  mNrmMin : ℚ
  hNrm : ℚ

/-- An `IndShockConsumerType` instance as configured by the Micro-and-Macro
notebook: one field per key of `cstwMPC_calibrated_parameters`, with the
types the dictionary values carry, plus the RNG seed field the notebook
assigns, the `solution` attribute (absent, i.e. `none`, until `solve` runs)
and the simulated asset array `aLvlNow` (absent until simulation). -/
structure IndShockAgent where
  CRRA : ℚ
  Rfree : ℚ
  PermGroFac : List ℚ
  PermGroFacAgg : ℚ
  BoroCnstArt : ℚ
  CubicBool : Bool
  vFuncBool : Bool
  PermShkStd : List ℚ
  PermShkCount : ℕ
  TranShkStd : List ℚ
  TranShkCount : ℕ
  UnempPrb : ℚ
  IncUnemp : ℚ
  UnempPrbRet : Option ℚ
  IncUnempRet : Option ℚ
  aXtraMin : ℚ
  aXtraMax : ℚ
  aXtraCount : ℕ
  aXtraExtra : List (Option ℚ)
  aXtraNestFac : ℕ
  LivPrb : List ℚ
  DiscFac : ℚ
  cycles : ℕ
  T_cycle : ℕ
  T_retire : ℕ
  T_sim : ℕ
  T_age : ℕ
  IndL : ℚ
  aNrmInitMean : ℚ
  aNrmInitStd : ℚ
  pLvlInitMean : ℚ
  pLvlInitStd : ℚ
  AgentCount : ℕ
  seed : ℕ
  solution : Option (List PeriodSolution)
  aLvlNow : Option (List ℚ)

/-- Modelled from the spec: the external constructor
`IndShockConsumerType(**cstwMPC_calibrated_parameters)` returns "a configured,
unsolved agent", so `solution` and `aLvlNow` start absent; its per-instance
RNG seed defaults to 0 until the notebook assigns one.  The configured fields
are the entries of `cstwMPC_calibrated_parameters` above. -/
def BaselineType : IndShockAgent :=
  { CRRA := 1.0
    Rfree := 1.01 / (1 - 1/160)
    PermGroFac := [1]
    PermGroFacAgg := 1.0
    BoroCnstArt := 0.0
    CubicBool := false
    vFuncBool := false
    PermShkStd := [permShkStdVal]
    PermShkCount := 5
    TranShkStd := [tranShkStdVal]
    TranShkCount := 5
    UnempPrb := 0.07
    IncUnemp := 0.15
    UnempPrbRet := none
    IncUnempRet := none
    aXtraMin := 0.00001
    aXtraMax := 40
    aXtraCount := 32
    aXtraExtra := [none]
    aXtraNestFac := 3
    LivPrb := [1 - 1/160]
    DiscFac := 0.97
    cycles := 0
    T_cycle := 1
    T_retire := 0
    T_sim := 1200
    T_age := 400
    IndL := 10/9
    aNrmInitMean := aNrmInitMeanVal
    aNrmInitStd := 0.0
    pLvlInitMean := 0.0
    pLvlInitStd := 0.0
    AgentCount := 10000
    seed := 0
    solution := none
    aLvlNow := none }

/-- Modelled from the spec: `approxUniform(N, bot, top)` (from
`HARK.utilities`, not included in the repository) discretises the uniform
distribution on `[bot, top]` into `N` equiprobable points — the bin
midpoints, in increasing order — returning the pair (probabilities, points);
the notebook reads component `[1]`, the points. -/
def approxUniform (N : ℕ) (bot top : ℚ) : List ℚ × List ℚ :=
  ( (List.range N).map (fun _ => 1 / (N : ℚ)),
    (List.range N).map (fun i => bot + (top - bot) * (2 * (i : ℚ) + 1) / (2 * (N : ℚ))) )

/-- `num_types` from the notebook. -/
def num_types : ℕ := 7

/-- `DiscFac_mean` from the notebook. -/
def DiscFac_mean : ℚ := 0.98556

/-- `DiscFac_spread` from the notebook. -/
def DiscFac_spread : ℚ := 0.0085

/-- `DiscFac_dstn = approxUniform(num_types, DiscFac_mean-DiscFac_spread,
DiscFac_mean+DiscFac_spread)[1]` from the notebook. -/
def DiscFac_dstn : List ℚ :=
  (approxUniform num_types (DiscFac_mean - DiscFac_spread) (DiscFac_mean + DiscFac_spread)).2

/-- The construction loop of the Micro-and-Macro notebook: for each
`nn in range(num_types)`, deep-copy `BaselineType` (value semantics), set
`DiscFac` to `DiscFac_dstn[nn]` and `seed` to `nn`, and append.  The index
into `DiscFac_dstn` is always in range (`num_types` points), so total
indexing with default 0 renders it faithfully. -/
def MyTypes : List IndShockAgent :=
  (List.range num_types).map
    (fun nn => { BaselineType with DiscFac := DiscFac_dstn.getD nn 0, seed := nn })

/-- The three lifecycle methods the solve-and-simulate loop invokes. -/
inductive LifecycleEvent where
  | solveEv : LifecycleEvent
  | initSimEv : LifecycleEvent
  | simulateEv : LifecycleEvent
  deriving DecidableEq

/-- Modelled from the spec: `log_progress` (from `lib/util.py`, a progress-bar
wrapper not included under the provided sources) yields the elements of its
argument unchanged and in order. -/
def log_progress (xs : List α) : List α := xs

/-- The event trace of the Micro-and-Macro solve-and-simulate loop
`for ThisType in log_progress(MyTypes, every=1): ThisType.solve();
ThisType.initializeSim(); ThisType.simulate()`, with agent instances named by
their position in `MyTypes`. -/
def solveSimTrace : List (ℕ × LifecycleEvent) :=
  (log_progress (List.range MyTypes.length)).flatMap
    (fun i => [(i, .solveEv), (i, .initSimEv), (i, .simulateEv)])

/-- Modelled from the spec: `solve()` "populates a per-period solution object
(minimally exposing a consumption-policy function and scalar bounds such as
minimum feasible resource level and human-wealth ratio)" as a function of the
agent's configuration.  The spec fixes the interface and the dependency on the
configuration, not the numeric law; the concrete mapping below is a definite
stand-in computed from the configuration fields. -/
def indShockSolutionOf (a : IndShockAgent) : PeriodSolution :=
  { cFunc := fun m => (1 - a.DiscFac * a.LivPrb.getD 0 1 / a.Rfree) * (m - a.BoroCnstArt)
    mNrmMin := a.BoroCnstArt
    hNrm := (a.PermGroFac.getD 0 1) / (a.Rfree - a.PermGroFac.getD 0 1) }

/-- The `solve` lifecycle method: populates the `solution` attribute with the
list of per-period solution objects (one period for this infinite-horizon
configuration). -/
def IndShockAgent.solveM (a : IndShockAgent) : IndShockAgent :=
  { a with solution := some [indShockSolutionOf a] }

/-- Modelled from the spec: the pseudo-random shock draw sequence "seeded per
instance" — a deterministic linear-congruential stream of draws in `[0, 1)`
generated from the instance's RNG seed. -/
def shockDraw (seed : ℕ) : ℕ → ℕ
  | 0 => (seed * 1103515245 + 12345) % 2 ^ 31
  | n + 1 => (shockDraw seed n * 1103515245 + 12345) % 2 ^ 31

/-- The `initializeSim` lifecycle method, modelled from the spec: resets the
per-agent simulated state arrays to their initial values, one entry per
simulated agent, drawn from the configured initial distribution (degenerate
here, `aNrmInitStd = 0`). -/
def IndShockAgent.initSimM (a : IndShockAgent) : IndShockAgent :=
  { a with aLvlNow := some ((List.range a.AgentCount).map (fun _ => a.aNrmInitMean)) }

/-- The `simulate` lifecycle method, modelled from the spec: populates the
per-agent simulated asset array "given the solved policy and a pseudo-random
shock draw sequence seeded per instance".  The spec fixes this dependency
structure, not the numeric law; the concrete mapping below is a definite
stand-in applying the solved policy to a seed-derived shock for each simulated
agent. -/
def IndShockAgent.simulateM (a : IndShockAgent) : IndShockAgent :=
  { a with aLvlNow := some ((List.range a.AgentCount).map (fun j =>
      match a.solution with
      | some (sol :: _) =>
          sol.cFunc ((shockDraw a.seed j : ℚ) / 2 ^ 31) + sol.hNrm * a.UnempPrb
      | _ => 0)) }

/-- Running the three lifecycle calls of the loop body on one agent. -/
def pipelineRun (a : IndShockAgent) : IndShockAgent :=
  a.solveM.initSimM.simulateM

/-- The configuration of an agent instance: everything the constructor
dictionary set, i.e. the instance with its RNG seed and its mutable outputs
(`solution`, `aLvlNow`) erased. -/
def configOf (a : IndShockAgent) : IndShockAgent :=
  { a with seed := 0, solution := none, aLvlNow := none }

/-- `np.mean` of a flat array, under the exact-rational idealisation of
binary64 arithmetic: the sum divided by the length. -/
def npMean (xs : List ℚ) : ℚ := xs.sum / (xs.length : ℚ)

/-- `aLvl_all = np.concatenate([ThisType.aLvlNow for ThisType in MyTypes])`:
the per-type simulated asset arrays, concatenated in list order (an agent that
has not been simulated contributes its absent array as empty). -/
def aLvl_all (tys : List IndShockAgent) : List ℚ :=
  (tys.map (fun t => t.aLvlNow.getD [])).flatten

/-- The aggregate capital-to-income ratio the notebook prints:
`np.mean(aLvl_all)`. -/
def capitalToIncomeRatio (tys : List IndShockAgent) : ℚ :=
  npMean (aLvl_all tys)

/-- A `PerfForesightConsumerType` instance as configured by the tutorial
notebook: one field per key of `PF_dictionary`, plus the `solution`
attribute, absent (`none`) until `solve` runs. -/
structure PFAgent where
  CRRA : ℚ
  DiscFac : ℚ
  Rfree : ℚ
  LivPrb : List ℚ
  PermGroFac : List ℚ
  T_cycle : ℕ
  cycles : ℕ
  AgentCount : ℕ
  solution : Option (List PeriodSolution)

/-- Modelled from the spec: the external constructor
`PerfForesightConsumerType(**d)` accepts the configuration mapping and returns
"a configured, unsolved agent" — every configured field set from the
dictionary, and no solution attribute yet. -/
def PerfForesightConsumerType (CRRA DiscFac Rfree : ℚ) (LivPrb PermGroFac : List ℚ)
    (T_cycle cycles AgentCount : ℕ) : PFAgent :=
  { CRRA := CRRA, DiscFac := DiscFac, Rfree := Rfree, LivPrb := LivPrb,
    PermGroFac := PermGroFac, T_cycle := T_cycle, cycles := cycles,
    AgentCount := AgentCount, solution := none }

/-- `PFexample = PerfForesightConsumerType(**PF_dictionary)` from the tutorial
notebook. -/
def PFexample : PFAgent :=
  PerfForesightConsumerType 2.5 0.96 1.03 [0.98] [1.01] 1 0 10000

/-- Modelled from the spec: the perfect-foresight `solve()` populates the
solution attribute with a list of per-period solution objects — one period
for this infinite-horizon configuration — exposing the consumption policy
`cFunc` and the scalar bounds `mNrmMin` and `hNrm`.  The human-wealth ratio
uses the perfect-foresight limit `G/(R-G)`; the policy slope is a definite
stand-in computed from the configuration (the spec fixes the interface, not
the numeric law). -/
def pfSolutionOf (a : PFAgent) : PeriodSolution :=
  letI G : ℚ := a.PermGroFac.getD 0 1
  letI h : ℚ := if G < a.Rfree then G / (a.Rfree - G) else 0
  { cFunc := fun m => (1 - a.DiscFac * a.LivPrb.getD 0 1 / a.Rfree) * (m + h)
    mNrmMin := -h
    hNrm := h }

/-- The perfect-foresight `solve` lifecycle method. -/
def PFAgent.solveM (a : PFAgent) : PFAgent :=
  { a with solution := some [pfSolutionOf a] }

/-- `deepcopy` from the `copy` module: produces a fully independent copy of
the whole object graph, which in this value-semantics embedding is the value
itself. -/
def deepcopy (a : α) : α := a

/-- A notebook variable store: name bindings in most-recently-bound-first
order.  Because `deepcopy` severs all sharing, distinct bindings hold
independent values. -/
def setVar (s : List (String × α)) (x : String) (v : α) : List (String × α) :=
  (x, v) :: s

/-- Look a variable up in a store. -/
def getVar (s : List (String × α)) (x : String) : Option α :=
  (s.find? (fun p => p.1 == x)).map (fun p => p.2)

/-- Apply a field assignment or method call to the object a variable holds,
rebinding the variable to the result (statement `x.f = v` or `x.m()`). -/
def updateVar (s : List (String × α)) (x : String) (f : α → α) : List (String × α) :=
  match getVar s x with
  | some a => setVar s x (f a)
  | none => s

/-- The tutorial notebook's store after
`PFexample = PerfForesightConsumerType(**PF_dictionary)`. -/
def pfStore0 : List (String × PFAgent) := setVar [] "PFexample" PFexample

/-- After `PFexample.solve()`. -/
def pfStore1 : List (String × PFAgent) := updateVar pfStore0 "PFexample" PFAgent.solveM

/-- After `NewExample = deepcopy(PFexample)`. -/
def pfStore2 : List (String × PFAgent) :=
  match getVar pfStore1 "PFexample" with
  | some a => setVar pfStore1 "NewExample" (deepcopy a)
  | none => pfStore1

/-- After `NewExample.DiscFac = 0.90`. -/
def pfStore3 : List (String × PFAgent) :=
  updateVar pfStore2 "NewExample" (fun a => { a with DiscFac := 0.90 })

/-- After `NewExample.solve()`. -/
def pfStore4 : List (String × PFAgent) := updateVar pfStore3 "NewExample" PFAgent.solveM

/-- The Micro-and-Macro construction loop in store form: each iteration
deep-copies the object bound to `BaselineType`, mutates the copy's `DiscFac`
and `seed`, rebinds `NewType`, and appends the copy to the accumulated list. -/
def microStep (acc : List (String × IndShockAgent) × List IndShockAgent) (nn : ℕ) :
    List (String × IndShockAgent) × List IndShockAgent :=
  match getVar acc.1 "BaselineType" with
  | some base =>
      letI NewType := deepcopy base
      letI NewType2 := { NewType with DiscFac := DiscFac_dstn.getD nn 0, seed := nn }
      (setVar acc.1 "NewType" NewType2, acc.2 ++ [NewType2])
  | none => acc

/-- The store and list after running the whole construction loop. -/
def microLoopResult : List (String × IndShockAgent) × List IndShockAgent :=
  (List.range num_types).foldl microStep (setVar [] "BaselineType" BaselineType, [])

/-- Python runtime errors the notebooks surface. -/
inductive PyErr where
  | nameErr : String → PyErr
  | typeErr : String → PyErr
  deriving DecidableEq

/-- Values the `calcLorenzDistance` body can bind. -/
inductive LorenzLocal where
  | npArr : List ℚ → LorenzLocal
  | agentList : List IndShockAgent → LorenzLocal

/-- Look a name up in a local environment, raising `NameError` when the name
is bound nowhere (as Python does for a name a function body never assigns). -/
def pyLookup (env : List (String × LorenzLocal)) (x : String) : Except PyErr LorenzLocal :=
  match env.find? (fun p => p.1 == x) with
  | some p => .ok p.2
  | none => .error (.nameErr x)

/-- `lorenz_SCF = np.array([-0.00183091, 0.0104425, 0.0552605, 0.1751907])`
from the `calcLorenzDistance` body. -/
def lorenz_SCF : List ℚ := [-0.00183091, 0.0104425, 0.0552605, 0.1751907]

/-- `calcLorenzDistance(SomeTypes)` exactly as the notebook defines it: the
body binds the parameter and `lorenz_SCF`, the remaining steps are only
comments, and `return lorenz_distance` reads a name that is assigned nowhere
in the function (and bound in no enclosing scope), so the lookup raises. -/
def calcLorenzDistance (SomeTypes : List IndShockAgent) : Except PyErr ℚ :=
  letI locals : List (String × LorenzLocal) :=
    [("SomeTypes", .agentList SomeTypes), ("lorenz_SCF", .npArr lorenz_SCF)]
  match pyLookup locals "lorenz_distance" with
  | .error e => .error e
  | .ok (.npArr _) => .error (.typeErr "not a float")
  | .ok (.agentList _) => .error (.typeErr "not a float")

/-- A failure recorded in a notebook's stored outputs: the exception class
name, whether the failing cell is an intentionally incomplete exercise cell,
and how many outputs the cell produced before the error. -/
structure RecordedFailure where
  ename : String
  exerciseCell : Bool
  priorOutputs : ℕ
  deriving DecidableEq

/-- Every failure stored in the two notebooks:
the tutorial notebook In[9] (`plotFuncs(PFexample.solution[0].cFunc,bottom,top)`
under the instruction to fill in `bottom` and `top`), its In[12] (the
`your lines here!` exercise cell), and the Micro-and-Macro notebook In[5]
(the solve-and-simulate loop cell, executed while its body was still the
unwritten exercise: the traceback reports `expected an indented block` at
line 2).  Each failing cell's stored output list contains only the error. -/
def notebookFailures : List RecordedFailure :=
  [ { ename := "NameError", exerciseCell := true, priorOutputs := 0 },
    { ename := "SyntaxError", exerciseCell := true, priorOutputs := 0 },
    { ename := "IndentationError", exerciseCell := true, priorOutputs := 0 } ]

/-- An undefined-variable error: `NameError`, or its subclass
`UnboundLocalError`. -/
def isUndefinedVariableError (ename : String) : Bool :=
  ename == "NameError" || ename == "UnboundLocalError"

/-- A syntax error: `SyntaxError`, or its subclasses `IndentationError` and
`TabError`. -/
def isSyntaxErrorClass (ename : String) : Bool :=
  ename == "SyntaxError" || ename == "IndentationError" || ename == "TabError"

/-- The expressions appearing in the failing `plotFuncs` call. -/
inductive PExpr where
  | name : String → PExpr
  | cFuncOfSolution : PExpr → ℕ → PExpr

/-- Values the tutorial notebook's expressions evaluate to. -/
inductive PVal where
  | num : ℚ → PVal
  | func : (ℚ → ℚ) → PVal
  | agent : PFAgent → PVal

/-- Evaluate an expression in a variable environment.  A bare name that is
bound nowhere raises `NameError`; `e.solution[0].cFunc` evaluates `e` and
projects the consumption policy out of its solution list. -/
def evalPExpr (env : List (String × PVal)) : PExpr → Except PyErr PVal
  | .name x =>
      match env.find? (fun p => p.1 == x) with
      | some p => .ok p.2
      | none => .error (.nameErr x)
  | .cFuncOfSolution e i =>
      match evalPExpr env e with
      | .error err => .error err
      | .ok (.agent a) =>
          match a.solution with
          | some sols =>
              match sols.get? i with
              | some sol => .ok (.func sol.cFunc)
              | none => .error (.typeErr "index out of range")
          | none => .error (.typeErr "no solution attribute")
      | .ok _ => .error (.typeErr "not an agent")

/-- Evaluate call arguments left to right, stopping at the first error (as
Python evaluates a call's arguments before the callee runs). -/
def evalPArgs (env : List (String × PVal)) : List PExpr → Except PyErr (List PVal)
  | [] => .ok []
  | e :: es =>
      match evalPExpr env e with
      | .error err => .error err
      | .ok v =>
          match evalPArgs env es with
          | .error err => .error err
          | .ok vs => .ok (v :: vs)

/-- The result of running one notebook cell: what it displayed, the error it
raised (if any), and the variable environment afterwards. -/
structure CellResult where
  displayed : List String
  raised : Option PyErr
  envAfter : List (String × PVal)

/-- Running the cell `plotFuncs(arg1, ..., argn)`: the arguments are evaluated
first; only if they all evaluate does `plotFuncs` (modelled from the spec: a
plotting utility producing one visual) run.  Evaluation reads the environment
and never writes it. -/
def runPlotFuncsCell (env : List (String × PVal)) (args : List PExpr) : CellResult :=
  match evalPArgs env args with
  | .error err => { displayed := [], raised := some err, envAfter := env }
  | .ok _ => { displayed := ["plot"], raised := none, envAfter := env }

/-- The environment in which the failing tutorial cell In[9] runs: `PFexample`
is bound (and already solved by In[7]); `bottom` and `top` were never
assigned. -/
def plotCellEnv : List (String × PVal) := [("PFexample", .agent PFexample.solveM)]

/-- The argument list of the failing call
`plotFuncs(PFexample.solution[0].cFunc, bottom, top)`. -/
def plotCellArgs : List PExpr :=
  [.cFuncOfSolution (.name "PFexample") 0, .name "bottom", .name "top"]

/-- Erase the two fields the construction loop assigns, restoring
`BaselineType`'s values for them. -/
def exceptDiscFacSeed (a : IndShockAgent) : IndShockAgent :=
  { a with DiscFac := BaselineType.DiscFac, seed := BaselineType.seed }

/-- C1: the claim says `calcLorenzDistance(SomeTypes)` returns the Euclidean
distance to the empirical Lorenz vector, a float, rather than raising.  It is
false at the concrete input built by the notebook (the solved-and-simulated
`MyTypes`): the call returns no float. -/
theorem c1_counterexample :
    ¬ ∃ q : ℚ, calcLorenzDistance (MyTypes.map pipelineRun) = Except.ok q := by
  intro h
  obtain ⟨q, hq⟩ := h
  have hr : calcLorenzDistance (MyTypes.map pipelineRun) =
      Except.error (PyErr.nameErr "lorenz_distance") := rfl
  rw [hr] at hq
  exact Except.noConfusion hq

/-- C1 (amended): for every list of solved-and-simulated agent types,
`calcLorenzDistance(SomeTypes)` raises a `NameError` on the name
`lorenz_distance` — the intentionally incomplete body never assigns it — and
returns no float. -/
theorem c1_amended (SomeTypes : List IndShockAgent) :
    calcLorenzDistance SomeTypes = Except.error (PyErr.nameErr "lorenz_distance") := rfl

/-- C2: the claim says each of the seven appended instances differs from
`BaselineType` in only the one scalar field `DiscFac`, every other field being
equal.  It is false at the concrete instance `MyTypes[1]`, whose RNG seed
field the loop also reassigns: `MyTypes[1].seed = 1` while
`BaselineType.seed = 0`. -/
theorem c2_counterexample :
    ¬ (MyTypes.getD 1 BaselineType).seed = BaselineType.seed := by decide

/-- C2 (amended): each of the seven instances appended to `MyTypes` is a deep
copy of `BaselineType` that differs from it in at most the two fields the loop
assigns — the discount factor `DiscFac` and the RNG seed `seed`; every other
field of each copy equals the corresponding field of `BaselineType` after the
construction loop finishes. -/
theorem c2_amended (i : Fin 7) :
    exceptDiscFacSeed (MyTypes.getD (i : ℕ) BaselineType) = BaselineType := by
  fin_cases i <;> rfl

/-- C3: in the solve-and-simulate loop's event trace, each of the seven agent
instances receives each lifecycle call exactly once, and its `solve` call
precedes its `initializeSim` call, which precedes its `simulate` call — so on
no instance is `simulate` invoked before `initializeSim`, nor `initializeSim`
before `solve`. -/
theorem c3_lifecycle_order (i : Fin 7) :
    solveSimTrace.count ((i : ℕ), .solveEv) = 1 ∧
    solveSimTrace.count ((i : ℕ), .initSimEv) = 1 ∧
    solveSimTrace.count ((i : ℕ), .simulateEv) = 1 ∧
    solveSimTrace.indexOf ((i : ℕ), .solveEv) < solveSimTrace.indexOf ((i : ℕ), .initSimEv) ∧
    solveSimTrace.indexOf ((i : ℕ), .initSimEv) < solveSimTrace.indexOf ((i : ℕ), .simulateEv) := by
  fin_cases i <;> decide

/-- C4: the claim says every value in `PF_dictionary` and
`cstwMPC_calibrated_parameters` is a numeric scalar or a sequence of numeric
values.  It is false at the concrete entry `"UnempPrbRet"` of
`cstwMPC_calibrated_parameters`, whose value is `None`. -/
theorem c4_counterexample :
    ¬ cstwMPC_calibrated_parameters.all (fun kv => kv.2.isNumericValue) = true ∧
    (cstwMPC_calibrated_parameters.find? (fun kv => kv.1 == "UnempPrbRet")).map
      (fun kv => kv.2.isNumericValue) = some false := by
  exact ⟨by decide, by decide⟩

/-- C4 (amended): every value in `PF_dictionary` is a numeric scalar or a
sequence of numeric values, and so is every value of
`cstwMPC_calibrated_parameters` except at the three keys `UnempPrbRet` and
`IncUnempRet` (whose values are `None`) and `aXtraExtra` (whose value is the
sequence `[None]`). -/
theorem c4_amended :
    PF_dictionary.all (fun kv => kv.2.isNumericValue) = true ∧
    cstwMPC_calibrated_parameters.all (fun kv =>
      kv.2.isNumericValue ||
        (kv.1 == "UnempPrbRet" || kv.1 == "IncUnempRet" || kv.1 == "aXtraExtra")) = true := by
  exact ⟨by decide, by decide⟩

/-- C5: for any per-type simulated asset arrays, the aggregate
capital-to-income ratio the notebook reports — the arithmetic mean of the
concatenation, in list order, of the per-type `aLvlNow` arrays — equals the
sum of all simulated individual asset levels divided by the total number of
simulated agents across all types. -/
theorem c5_aggregate_ratio (tys : List IndShockAgent) :
    capitalToIncomeRatio tys =
      (tys.map (fun t => (t.aLvlNow.getD []).sum)).sum /
        (((tys.map (fun t => (t.aLvlNow.getD []).length)).sum : ℕ) : ℚ) := by
  have hs : (aLvl_all tys).sum = (tys.map (fun t => (t.aLvlNow.getD []).sum)).sum := by
    simp [aLvl_all, List.sum_flatten, List.map_map, Function.comp_def]
  have hl : (aLvl_all tys).length = (tys.map (fun t => (t.aLvlNow.getD []).length)).sum := by
    simp [aLvl_all, List.length_flatten, List.map_map, Function.comp_def]
  rw [capitalToIncomeRatio, npMean, hs, hl]

/-- C6: the pipeline is deterministic in its inputs — any two agent instances
with equal configurations (everything the constructor dictionary set) and
equal per-instance RNG seed fields produce, after `solve`, `initializeSim` and
`simulate`, equal solution objects and equal `aLvlNow` arrays; in particular
two runs on the same fixed inputs reproduce the same outputs. -/
theorem c6_pipeline_deterministic (a b : IndShockAgent)
    (hc : configOf a = configOf b) (hs : a.seed = b.seed) :
    (pipelineRun a).solution = (pipelineRun b).solution ∧
    (pipelineRun a).aLvlNow = (pipelineRun b).aLvlNow := by
  have hD : a.DiscFac = b.DiscFac :=
    show (configOf a).DiscFac = (configOf b).DiscFac from congrArg _ hc
  have hL : a.LivPrb = b.LivPrb :=
    show (configOf a).LivPrb = (configOf b).LivPrb from congrArg _ hc
  have hR : a.Rfree = b.Rfree :=
    show (configOf a).Rfree = (configOf b).Rfree from congrArg _ hc
  have hB : a.BoroCnstArt = b.BoroCnstArt :=
    show (configOf a).BoroCnstArt = (configOf b).BoroCnstArt from congrArg _ hc
  have hG : a.PermGroFac = b.PermGroFac :=
    show (configOf a).PermGroFac = (configOf b).PermGroFac from congrArg _ hc
  have hA : a.AgentCount = b.AgentCount :=
    show (configOf a).AgentCount = (configOf b).AgentCount from congrArg _ hc
  have hU : a.UnempPrb = b.UnempPrb :=
    show (configOf a).UnempPrb = (configOf b).UnempPrb from congrArg _ hc
  constructor
  · simp only [pipelineRun, IndShockAgent.solveM, IndShockAgent.initSimM,
      IndShockAgent.simulateM, indShockSolutionOf]
    rw [hD, hL, hR, hB, hG]
  · simp only [pipelineRun, IndShockAgent.solveM, IndShockAgent.initSimM,
      IndShockAgent.simulateM, indShockSolutionOf]
    rw [hD, hL, hR, hB, hG, hA, hU, hs]

/-- Witness for C6: two concrete instances with equal configuration and seed
but different leftover simulated state produce equal pipeline outputs. -/
theorem c6_witness :
    configOf { BaselineType with aLvlNow := some [3] } = configOf BaselineType ∧
    BaselineType.seed = ({ BaselineType with aLvlNow := some [3] } : IndShockAgent).seed ∧
    ((pipelineRun { BaselineType with aLvlNow := some [3] }).solution =
        (pipelineRun BaselineType).solution ∧
      (pipelineRun { BaselineType with aLvlNow := some [3] }).aLvlNow =
        (pipelineRun BaselineType).aLvlNow) :=
  ⟨rfl, rfl, c6_pipeline_deterministic _ _ rfl rfl⟩

/-- C7: a configured perfect-foresight agent has no solution attribute before
`solve()` is called, and calling `solve()` populates the attribute with the
(nonempty) list of per-period solution objects — values of `PeriodSolution`,
each exposing the consumption policy `cFunc` and the scalar bounds `mNrmMin`
and `hNrm`. -/
theorem c7_solve_populates (CRRA DiscFac Rfree : ℚ) (LivPrb PermGroFac : List ℚ)
    (T_cycle cycles AgentCount : ℕ) :
    (PerfForesightConsumerType CRRA DiscFac Rfree LivPrb PermGroFac
        T_cycle cycles AgentCount).solution = none ∧
    ((PerfForesightConsumerType CRRA DiscFac Rfree LivPrb PermGroFac
        T_cycle cycles AgentCount).solveM).solution =
      some [pfSolutionOf (PerfForesightConsumerType CRRA DiscFac Rfree LivPrb PermGroFac
        T_cycle cycles AgentCount)] :=
  ⟨rfl, rfl⟩

/-- C8: every failure recorded in the notebooks is an undefined-variable error
or a syntax error in an intentionally incomplete exercise cell, and each
failing cell raised before producing any output; in particular the cell
`plotFuncs(PFexample.solution[0].cFunc, bottom, top)`, run with `bottom` and
`top` unbound, raises `NameError` on `bottom`, displays no plot, and leaves
the environment — including the solved `PFexample` instance — unchanged. -/
theorem c8_failure_model :
    notebookFailures.all (fun f =>
      (isUndefinedVariableError f.ename || (isSyntaxErrorClass f.ename && f.exerciseCell)) &&
        f.priorOutputs == 0) = true ∧
    (runPlotFuncsCell plotCellEnv plotCellArgs).raised = some (PyErr.nameErr "bottom") ∧
    (runPlotFuncsCell plotCellEnv plotCellArgs).displayed = [] ∧
    (runPlotFuncsCell plotCellEnv plotCellArgs).envAfter = plotCellEnv :=
  ⟨by decide, rfl, rfl, rfl⟩

/-- C9: after the construction loop `MyTypes` holds exactly `num_types = 7`
elements, the `i`-th element's RNG seed is `i` (so the seven seeds are
pairwise distinct), and the `i`-th element's `DiscFac` is the `i`-th point of
the 7-point `approxUniform` discretisation of the uniform distribution on
`[0.98556 - 0.0085, 0.98556 + 0.0085]`, in the distribution's order. -/
theorem c9_construction :
    MyTypes.length = 7 ∧
    MyTypes.map IndShockAgent.seed = [0, 1, 2, 3, 4, 5, 6] ∧
    MyTypes.map IndShockAgent.DiscFac = DiscFac_dstn ∧
    DiscFac_dstn = (approxUniform 7 (0.98556 - 0.0085) (0.98556 + 0.0085)).2 :=
  ⟨rfl, rfl, rfl, rfl⟩

/-- C10: deep-copied instances are isolated from their originals.  In the
tutorial notebook's run, after `NewExample = deepcopy(PFexample)`,
`NewExample.DiscFac = 0.90` and `NewExample.solve()`, the binding of
`PFexample` is exactly what it was before the copy — the solved instance with
`DiscFac = 0.96` and its existing solution; and in the Micro-and-Macro
construction loop, mutating each `NewType` copy leaves the `BaselineType`
binding unchanged while producing exactly `MyTypes`. -/
theorem c10_deepcopy_isolation :
    getVar pfStore4 "PFexample" = getVar pfStore1 "PFexample" ∧
    getVar pfStore4 "PFexample" = some PFexample.solveM ∧
    (getVar pfStore4 "PFexample").map PFAgent.DiscFac = some 0.96 ∧
    getVar microLoopResult.1 "BaselineType" = some BaselineType ∧
    microLoopResult.2 = MyTypes :=
  ⟨rfl, rfl, rfl, rfl, rfl⟩
